import Mathlib

/-!
# Verification of the WS2812 LED strip controller (`led_controller.py`)

A shallow embedding of the Python source into Lean 4:

* `Color` mirrors the `Color` namedtuple `(r, g, b)`.
* `Strip` mirrors the `Strip` class state: LED count, brightness scalar,
  and the pixel buffer.
* `WS2812SpiDriver` mirrors the SPI driver state: LED count, the
  precomputed clear buffer, and the transmission buffer.  Transmission
  (`writebytes2`) is modelled by returning the transmitted byte list
  alongside the new driver state.
* Python floats are modelled exactly by `ℚ`; the numpy `uint8` cast of a
  nonnegative float is truncation toward zero followed by reduction mod 256.
* Python / numpy failures (list `IndexError`, numpy broadcast `ValueError`
  on a length mismatch) are modelled by `Except PyErr`.
-/

/-- Python errors that the embedded operations can raise:
`indexOutOfRange` models a Python `IndexError` on list indexing,
`invalidBufferLength` models the numpy broadcast `ValueError` raised by
`self._buffer[PREAMBLE:] = ...` when the right-hand side length does not
match the slice. -/
inductive PyErr where
  | indexOutOfRange
  | invalidBufferLength
  deriving DecidableEq, Repr

/-- The `Color` namedtuple `(r, g, b)` from the source.  Channel values are
bytes in the Python program; the embedding uses `Nat` and states byte bounds
as hypotheses where they matter. -/
structure Color where
  r : Nat
  g : Nat
  b : Nat
  deriving DecidableEq, Repr

/-- Python list item assignment `l[i] = c`: a nonnegative index `i` is valid
when `i < len(l)`; a negative index `i` aliases `len(l) + i` and is valid when
`0 ≤ len(l) + i`.  Any other index raises `IndexError`. -/
def pyListSet (l : List Color) (i : Int) (c : Color) : Except PyErr (List Color) :=
  let j : Int := if i < 0 then i + l.length else i
  if 0 ≤ j ∧ j < l.length then .ok (l.set j.toNat c) else .error .indexOutOfRange

/-- Python list read `l[i]` restricted to nonnegative indices (as used by the
`white_rotate` loop): raises `IndexError` out of range. -/
def pyListGet (l : List Color) (i : Nat) : Except PyErr Color :=
  match l.get? i with
  | some c => .ok c
  | none => .error .indexOutOfRange

/-- The numpy `uint8` cast applied to a nonnegative float (all values cast in
the source are products of a `Nat` channel and a clamped brightness, hence
nonnegative): truncate toward zero (= floor) and reduce mod 2^8. -/
def npUint8 (q : ℚ) : Nat := (Rat.floor q).toNat % 256

/-- `np.unpackbits` on a single byte: its 8 bits, most-significant bit
first. -/
def unpackByte (x : Nat) : List Nat :=
  [x / 128 % 2, x / 64 % 2, x / 32 % 2, x / 16 % 2,
   x / 8 % 2, x / 4 % 2, x / 2 % 2, x % 2]

/-- `np.unpackbits` on a flat byte array: concatenation of the per-byte
MSB-first bit expansions. -/
def unpackbits : List Nat → List Nat
  | [] => []
  | x :: rest => unpackByte x ++ unpackbits rest

/-- The numpy slice assignment `a[k:] = v` on one-dimensional arrays: it
succeeds exactly when the lengths match (`k + len(v) = len(a)`), and fails
with a broadcast `ValueError` otherwise.  (numpy would also broadcast a
single-element `v`, but every right-hand side in the source is a bit
expansion of length `8 * m`, which is never 1.) -/
def npSliceSetFrom (a : List Nat) (k : Nat) (v : List Nat) : Option (List Nat) :=
  if k + v.length = a.length then some (a.take k ++ v) else none

namespace WS2812SpiDriver

/-- `LED_ZERO = 0b11000000`: the symbol byte for a logical 0 bit. -/
def LED_ZERO : Nat := 0b11000000

/-- `LED_ONE = 0b11111100`: the symbol byte for a logical 1 bit. -/
def LED_ONE : Nat := 0b11111100

/-- `PREAMBLE = 42`: the number of zero bytes preceding the data region. -/
def PREAMBLE : Nat := 42

end WS2812SpiDriver

/-- The `WS2812SpiDriver` state: LED count fixed at construction, the
precomputed clear buffer, and the reusable transmission buffer.  The SPI
device handle is external I/O; transmissions are returned explicitly. -/
structure WS2812SpiDriver where
  led_count : Nat
  clear_buffer : List Nat
  buffer : List Nat
  deriving DecidableEq, Repr

namespace WS2812SpiDriver

/-- `WS2812SpiDriver.__init__`: the clear buffer is `zeros(PREAMBLE + n*24)`
whose tail `[PREAMBLE:]` is then overwritten with `full(n*24, LED_ZERO)`
(source lines 107–110), and the transmission buffer starts as
`zeros(PREAMBLE + n*24)`. -/
def init (led_count : Nat) : WS2812SpiDriver :=
  { led_count := led_count
    clear_buffer :=
      (List.replicate (PREAMBLE + led_count * 24) 0).take PREAMBLE ++
        List.replicate (led_count * 24) LED_ZERO
    buffer := List.replicate (PREAMBLE + led_count * 24) 0 }

/-- `WS2812SpiDriver.write`: unpack the flattened color bytes into bits,
map each bit to `LED_ONE` / `LED_ZERO`, store the symbols after the
preamble, and transmit the whole buffer.  The numpy slice assignment fails
when the symbol count does not match the data region. -/
def write (d : WS2812SpiDriver) (buffer : List Nat) :
    Except PyErr (WS2812SpiDriver × List Nat) :=
  let color_bits := unpackbits buffer
  let symbols := color_bits.map (fun bit => if bit = 1 then LED_ONE else LED_ZERO)
  match npSliceSetFrom d.buffer PREAMBLE symbols with
  | some nb => .ok ({ d with buffer := nb }, nb)
  | none => .error .invalidBufferLength

/-- `WS2812SpiDriver.clear`: transmit the precomputed clear buffer; the
driver state is untouched. -/
def clear (d : WS2812SpiDriver) : WS2812SpiDriver × List Nat :=
  (d, d.clear_buffer)

end WS2812SpiDriver

/-- The `Strip` state: LED count (copied from the backend at construction),
brightness scalar, and the pixel buffer. -/
structure Strip where
  led_count : Nat
  brightness : ℚ
  pixels : List Color
  deriving DecidableEq, Repr

namespace Strip

/-- `Strip.__init__` as reached through `driver.get_strip()`: LED count from
the backend, brightness `1.0`, all pixels `(0,0,0)`. -/
def init (led_count : Nat) : Strip :=
  { led_count := led_count
    brightness := 1
    pixels := List.replicate led_count ⟨0, 0, 0⟩ }

/-- `Strip.set_pixel_color(i, color)`: Python list assignment on the pixel
buffer. -/
def set_pixel_color (s : Strip) (i : Int) (c : Color) : Except PyErr Strip :=
  (pyListSet s.pixels i c).map (fun px => { s with pixels := px })

/-- `Strip.set_brightness(b)`: store `max(min(b, 1.0), 0.0)`. -/
def set_brightness (s : Strip) (b : ℚ) : Strip :=
  { s with brightness := max (min b 1) 0 }

/-- `Strip.num_pixels()`. -/
def num_pixels (s : Strip) : Nat := s.led_count

/-- `Strip.get_brightness()`. -/
def get_brightness (s : Strip) : ℚ := s.brightness

/-- `Strip.set_all_pixels(color)`: replace the buffer by `[color] * n`. -/
def set_all_pixels (s : Strip) (c : Color) : Strip :=
  { s with pixels := List.replicate s.led_count c }

/-- The byte sequence `Strip.show` builds and passes to the backend: for each
pixel in order, the triple `(g * brightness, r * brightness, b * brightness)`
cast to `uint8`, flattened (`ravel` in the driver) in row-major order. -/
def showBytes : ℚ → List Color → List Nat
  | _, [] => []
  | b, p :: rest =>
      npUint8 (p.g * b) :: npUint8 (p.r * b) :: npUint8 (p.b * b) ::
        showBytes b rest

/-- The buffer `Strip.show` passes to `backend.write`. -/
def showOutput (s : Strip) : List Nat := showBytes s.brightness s.pixels

/-- The `Strip`-side effect of `Strip.clear`: the pixel buffer is reset to
`[Color(0,0,0)] * led_count` (the backend `clear` is composed in
`System.clear`). -/
def clearPixels (s : Strip) : Strip :=
  { s with pixels := List.replicate s.led_count ⟨0, 0, 0⟩ }

end Strip

/-- A strip together with its backend driver, for the operations that touch
both (`show`, `clear`). -/
structure System where
  strip : Strip
  driver : WS2812SpiDriver
  deriving DecidableEq, Repr

namespace System

/-- `Strip.show()`: build the (g,r,b)-ordered byte buffer and hand it to the
backend `write`; returns the new state and the transmitted frame. -/
def showStep (sys : System) : Except PyErr (System × List Nat) :=
  match sys.driver.write sys.strip.showOutput with
  | .ok (d, tx) => .ok ({ sys with driver := d }, tx)
  | .error e => .error e

/-- `Strip.clear()`: reset the pixel buffer and transmit the backend's
precomputed clear frame. -/
def clear (sys : System) : System × List Nat :=
  let (d, tx) := sys.driver.clear
  ({ strip := sys.strip.clearPixels, driver := d }, tx)

end System

deriving instance DecidableEq for Except

/-- Written from the claim's wording, for comparison with `Strip.showBytes`:
one `(g, r, b)` wire-order triple per pixel, each channel multiplied by the
brightness and truncated toward zero (the products are nonnegative, so
truncation toward zero is the floor). -/
def specScaledTriples (b : ℚ) : List Color → List Nat
  | [] => []
  | p :: rest =>
      (⌊(p.g : ℚ) * b⌋).toNat :: (⌊(p.r : ℚ) * b⌋).toNat ::
        (⌊(p.b : ℚ) * b⌋).toNat :: specScaledTriples b rest

/-- The initial `white_rotate` pattern: one white pixel at index 0 followed
by `led_count - 1` black pixels. -/
def whiteRotatePattern (n : Nat) : List Color :=
  ⟨255, 255, 255⟩ :: List.replicate (n - 1) ⟨0, 0, 0⟩

/-- One pattern update of `white_rotate`: `first = pattern.pop(0)` then
`pattern.append(first)`.  (`pop(0)` on an empty pattern would raise in
Python; the pattern built by `white_rotate` is never empty.) -/
def rotateOnce : List Color → List Color
  | [] => []
  | c :: rest => rest ++ [c]

/-- One `white_rotate` loop iteration on a (strip, pattern) pair: rotate the
pattern, then copy `pattern[i]` into pixel `i` for each `i < num_pixels()`
via `set_pixel_color`.  The `strip.show()` call only transmits and never
assigns a strip field, and the inter-frame `time.sleep` is a no-op here, so
neither appears in the state. -/
def whiteRotateStep (st : Strip × List Color) :
    Except PyErr (Strip × List Color) := do
  let pattern := rotateOnce st.2
  let s ← (List.range st.1.num_pixels).foldlM
    (fun s i => do
      let c ← pyListGet pattern i
      s.set_pixel_color (i : Int) c) st.1
  return (s, pattern)

/-- The `white_rotate` loop state after `k` iterations on a fresh strip of
`n` LEDs. -/
def whiteRotateIter (n : Nat) : Nat → Except PyErr (Strip × List Color)
  | 0 => .ok (Strip.init n, whiteRotatePattern n)
  | k + 1 => (whiteRotateIter n k).bind whiteRotateStep

/-- The indices of lit (non-black) pixels of a buffer. -/
def litIndices (l : List Color) : List Nat :=
  (List.range l.length).filter
    (fun i => decide (l.getD i ⟨0, 0, 0⟩ ≠ ⟨0, 0, 0⟩))

/-- The lit indices of the buffer observed at the `k`-th `show()` of
`white_rotate` on a 4-LED strip. -/
def whiteRotateLit4 (k : Nat) : Except PyErr (List Nat) :=
  (whiteRotateIter 4 k).map (fun st => litIndices st.1.pixels)

/-! ## Basic facts about the embedded operations -/

theorem unpackByte_length (x : Nat) : (unpackByte x).length = 8 := rfl

theorem unpackbits_length (l : List Nat) : (unpackbits l).length = 8 * l.length := by
  induction l with
  | nil => rfl
  | cons x rest ih =>
      simp only [unpackbits, List.length_append, unpackByte_length, ih,
        List.length_cons]
      omega

/-- `Rat.floor` agrees with the `FloorRing` floor on `ℚ`. -/
theorem ratFloor_eq_intFloor (q : ℚ) : Rat.floor q = ⌊q⌋ :=
  (Rat.floor_def' q).trans Rat.floor_def.symm

theorem npUint8_eq_intFloor (q : ℚ) : npUint8 q = (⌊q⌋).toNat % 256 := by
  rw [npUint8, ratFloor_eq_intFloor]

theorem npUint8_natCast (c : Nat) : npUint8 (c : ℚ) = c % 256 := by
  rw [npUint8_eq_intFloor, Int.floor_natCast, Int.toNat_natCast]

/-- A successful `write` changes only the transmission buffer: the LED count
and the precomputed clear buffer are untouched. -/
theorem write_ok_inv (d d2 : WS2812SpiDriver) (buf tx : List Nat)
    (h : d.write buf = .ok (d2, tx)) :
    d2.clear_buffer = d.clear_buffer ∧ d2.led_count = d.led_count ∧
      tx = d2.buffer := by
  unfold WS2812SpiDriver.write at h
  dsimp only at h
  cases hm : npSliceSetFrom d.buffer WS2812SpiDriver.PREAMBLE
      ((unpackbits buf).map fun bit =>
        if bit = 1 then WS2812SpiDriver.LED_ONE else WS2812SpiDriver.LED_ZERO) with
  | none => rw [hm] at h; exact absurd h (by simp)
  | some nb =>
      rw [hm] at h
      simp only [Except.ok.injEq, Prod.mk.injEq] at h
      obtain ⟨h1, h2⟩ := h
      subst h1; subst h2
      exact ⟨rfl, rfl, rfl⟩

/-! ## C1: the encoded frame -/

/-- C1: for a driver whose transmission buffer has the constructed shape
(length `PREAMBLE + n*24`, zero preamble — as after `init` and preserved by
every `write`), and any input of `n*3` channel bytes, `write` succeeds and
transmits a frame of exactly `PREAMBLE + n*24` bytes whose first `PREAMBLE`
bytes are zero and whose byte at `PREAMBLE + j` is `LED_ONE` when bit `j` of
the MSB-first bit expansion of the input is 1, and `LED_ZERO` otherwise. -/
theorem C1_write_encoded_frame (n : Nat) (d : WS2812SpiDriver) (buf : List Nat)
    (hdlen : d.buffer.length = WS2812SpiDriver.PREAMBLE + n * 24)
    (hdpre : d.buffer.take WS2812SpiDriver.PREAMBLE =
      List.replicate WS2812SpiDriver.PREAMBLE 0)
    (hlen : buf.length = n * 3) :
    ∃ d2, d.write buf = .ok (d2, d2.buffer) ∧
      d2.buffer.length = WS2812SpiDriver.PREAMBLE + n * 24 ∧
      (∀ j, j < WS2812SpiDriver.PREAMBLE → d2.buffer[j]? = some 0) ∧
      (∀ j, j < n * 24 →
        d2.buffer[WS2812SpiDriver.PREAMBLE + j]? =
          some (if (unpackbits buf)[j]? = some 1 then WS2812SpiDriver.LED_ONE
            else WS2812SpiDriver.LED_ZERO)) := by
  have hbits : (unpackbits buf).length = n * 24 := by
    rw [unpackbits_length, hlen]; ring
  have hsym :
      ((unpackbits buf).map fun bit =>
        if bit = 1 then WS2812SpiDriver.LED_ONE else WS2812SpiDriver.LED_ZERO).length
        = n * 24 := by
    rw [List.length_map, hbits]
  have hcond :
      WS2812SpiDriver.PREAMBLE +
        ((unpackbits buf).map fun bit =>
          if bit = 1 then WS2812SpiDriver.LED_ONE else WS2812SpiDriver.LED_ZERO).length
        = d.buffer.length := by
    rw [hsym, hdlen]
  have hnb :
      npSliceSetFrom d.buffer WS2812SpiDriver.PREAMBLE
        ((unpackbits buf).map fun bit =>
          if bit = 1 then WS2812SpiDriver.LED_ONE else WS2812SpiDriver.LED_ZERO) =
      some (List.replicate WS2812SpiDriver.PREAMBLE 0 ++
        (unpackbits buf).map fun bit =>
          if bit = 1 then WS2812SpiDriver.LED_ONE else WS2812SpiDriver.LED_ZERO) := by
    rw [npSliceSetFrom, if_pos hcond, hdpre]
  refine ⟨{ d with buffer := List.replicate WS2812SpiDriver.PREAMBLE 0 ++
      (unpackbits buf).map fun bit =>
        if bit = 1 then WS2812SpiDriver.LED_ONE else WS2812SpiDriver.LED_ZERO },
    ?_, ?_, ?_, ?_⟩
  · unfold WS2812SpiDriver.write
    dsimp only
    rw [hnb]
  · simp only [List.length_append, List.length_replicate, hsym]
  · intro j hj
    rw [List.getElem?_append, if_pos (by simpa using hj), List.getElem?_replicate,
      if_pos hj]
  · intro j hj
    rw [List.getElem?_append,
      if_neg (by simp only [List.length_replicate]; omega)]
    simp only [List.length_replicate, Nat.add_sub_cancel_left, List.getElem?_map]
    have hjb : j < (unpackbits buf).length := by rw [hbits]; exact hj
    rw [List.getElem?_eq_getElem hjb]
    by_cases hb : (unpackbits buf)[j] = 1
    · simp [hb]
    · simp [hb, Option.map_some]

/-- C1 witness: one LED, input bytes `[0, 255, 0]`. -/
theorem C1_witness :
    (WS2812SpiDriver.init 1).buffer.length =
        WS2812SpiDriver.PREAMBLE + 1 * 24 ∧
      (WS2812SpiDriver.init 1).buffer.take WS2812SpiDriver.PREAMBLE =
        List.replicate WS2812SpiDriver.PREAMBLE 0 ∧
      ([0, 255, 0] : List Nat).length = 1 * 3 ∧
      ∃ d2, (WS2812SpiDriver.init 1).write [0, 255, 0] = .ok (d2, d2.buffer) ∧
        d2.buffer.length = WS2812SpiDriver.PREAMBLE + 1 * 24 ∧
        (∀ j, j < WS2812SpiDriver.PREAMBLE → d2.buffer[j]? = some 0) ∧
        (∀ j, j < 1 * 24 →
          d2.buffer[WS2812SpiDriver.PREAMBLE + j]? =
            some (if (unpackbits [0, 255, 0])[j]? = some 1 then
              WS2812SpiDriver.LED_ONE else WS2812SpiDriver.LED_ZERO)) :=
  ⟨by decide, by decide, by decide,
    C1_write_encoded_frame 1 (WS2812SpiDriver.init 1) [0, 255, 0]
      (by decide) (by decide) (by decide)⟩

/-! ## C5: length mismatch fails fast -/

/-- C5: for a driver whose transmission buffer has length `PREAMBLE + n*24`
(as constructed and preserved), `write` on any input whose length is not
`n*3` fails with `invalidBufferLength` — it never truncates or pads. -/
theorem C5_write_length_mismatch (n : Nat) (d : WS2812SpiDriver)
    (buf : List Nat)
    (hdlen : d.buffer.length = WS2812SpiDriver.PREAMBLE + n * 24)
    (hne : buf.length ≠ n * 3) :
    d.write buf = .error .invalidBufferLength := by
  have hcond :
      WS2812SpiDriver.PREAMBLE +
        ((unpackbits buf).map fun bit =>
          if bit = 1 then WS2812SpiDriver.LED_ONE else WS2812SpiDriver.LED_ZERO).length
        ≠ d.buffer.length := by
    rw [List.length_map, unpackbits_length, hdlen]
    omega
  unfold WS2812SpiDriver.write
  dsimp only
  rw [npSliceSetFrom, if_neg hcond]

/-- C5 witness: two LEDs, a 5-byte input (one byte short). -/
theorem C5_witness :
    (WS2812SpiDriver.init 2).buffer.length = WS2812SpiDriver.PREAMBLE + 2 * 24 ∧
      ([1, 2, 3, 4, 5] : List Nat).length ≠ 2 * 3 ∧
      (WS2812SpiDriver.init 2).write [1, 2, 3, 4, 5] =
        .error .invalidBufferLength :=
  ⟨by decide, by decide,
    C5_write_length_mismatch 2 (WS2812SpiDriver.init 2) [1, 2, 3, 4, 5]
      (by decide) (by decide)⟩

/-! ## C3: the precomputed clear frame -/

/-- C3: the clear buffer built at construction has total length
`PREAMBLE + led_count*24`, a zero preamble, and a data region made entirely
of `LED_ZERO` symbol bytes; `clear` transmits exactly that buffer and leaves
the driver state unchanged, so repeated calls transmit byte-identical
frames; and a successful `write` in between does not touch the clear
buffer (it is never recomputed). -/
theorem C3_clear_frame (n : Nat) :
    (WS2812SpiDriver.init n).clear_buffer.length =
        WS2812SpiDriver.PREAMBLE + n * 24 ∧
      (WS2812SpiDriver.init n).clear_buffer.take WS2812SpiDriver.PREAMBLE =
        List.replicate WS2812SpiDriver.PREAMBLE 0 ∧
      (WS2812SpiDriver.init n).clear_buffer.drop WS2812SpiDriver.PREAMBLE =
        List.replicate (n * 24) WS2812SpiDriver.LED_ZERO ∧
      (WS2812SpiDriver.init n).clear =
        (WS2812SpiDriver.init n, (WS2812SpiDriver.init n).clear_buffer) ∧
      ((WS2812SpiDriver.init n).clear.1.clear.2 =
        (WS2812SpiDriver.init n).clear.2) ∧
      (∀ buf d2 tx, (WS2812SpiDriver.init n).write buf = .ok (d2, tx) →
        d2.clear_buffer = (WS2812SpiDriver.init n).clear_buffer ∧
          d2.clear = (d2, (WS2812SpiDriver.init n).clear_buffer)) := by
  have htake :
      (List.replicate (WS2812SpiDriver.PREAMBLE + n * 24) (0 : Nat)).take
          WS2812SpiDriver.PREAMBLE =
        List.replicate WS2812SpiDriver.PREAMBLE 0 := by
    rw [List.take_replicate, Nat.min_eq_left (Nat.le_add_right _ _)]
  refine ⟨?_, ?_, ?_, rfl, rfl, ?_⟩
  · simp only [WS2812SpiDriver.init, List.length_append, List.length_take,
      List.length_replicate]
    omega
  · simp only [WS2812SpiDriver.init, htake]
    rw [List.take_left']
    rw [List.length_replicate]
  · simp only [WS2812SpiDriver.init, htake]
    rw [List.drop_left']
    rw [List.length_replicate]
  · intro buf d2 tx h
    obtain ⟨h1, _, _⟩ := write_ok_inv _ _ _ _ h
    refine ⟨h1, ?_⟩
    rw [WS2812SpiDriver.clear, h1]

/-- C3 witness: a two-LED driver, with a concrete interleaved `write`. -/
theorem C3_witness :
    (WS2812SpiDriver.init 2).clear_buffer.drop WS2812SpiDriver.PREAMBLE =
        List.replicate (2 * 24) WS2812SpiDriver.LED_ZERO ∧
      ∃ d2 tx, (WS2812SpiDriver.init 2).write [9, 9, 9, 9, 9, 9] = .ok (d2, tx) ∧
        d2.clear_buffer = (WS2812SpiDriver.init 2).clear_buffer ∧
        d2.clear = (d2, (WS2812SpiDriver.init 2).clear_buffer) := by
  refine ⟨(C3_clear_frame 2).2.2.1, ?_⟩
  have hw : ∃ d2 tx,
      (WS2812SpiDriver.init 2).write [9, 9, 9, 9, 9, 9] = .ok (d2, tx) :=
    ⟨_, _, rfl⟩
  obtain ⟨d2, tx, hw⟩ := hw
  exact ⟨d2, tx, hw, (C3_clear_frame 2).2.2.2.2.2 _ _ _ hw⟩

/-! ## C4 / C9: pixel indexing -/

/-- C4 counterexample: on a 3-LED strip the index `-1` lies outside
`[0, led_count)`, yet `set_pixel_color` does not fail — it silently writes
the last pixel.  This refutes the claim that every index outside
`[0, led_count)` fails with `IndexOutOfRange`. -/
theorem C4_counterexample :
    (Strip.init 3).set_pixel_color (-1) ⟨7, 8, 9⟩ =
      .ok { led_count := 3, brightness := 1,
            pixels := [⟨0, 0, 0⟩, ⟨0, 0, 0⟩, ⟨7, 8, 9⟩] } := by
  decide

/-- C4 (amended): `set_pixel_color i c` with `0 ≤ i < led_count` succeeds and
mutates only the buffered value at `i` (no transmission); with
`i ≥ led_count` or `i < -led_count` it fails with `IndexOutOfRange`
(an index is never clamped or ignored).  Negative indices in
`[-led_count, -1]` alias from the end (see C9). -/
theorem C4_set_pixel_bounds (s : Strip) (i : Int) (c : Color)
    (hlen : s.pixels.length = s.led_count) :
    (0 ≤ i → i < (s.led_count : Int) → ∃ s2,
      s.set_pixel_color i c = .ok s2 ∧
        s2.pixels = s.pixels.set i.toNat c ∧
        s2.brightness = s.brightness ∧ s2.led_count = s.led_count) ∧
    ((s.led_count : Int) ≤ i ∨ i < -(s.led_count : Int) →
      s.set_pixel_color i c = .error .indexOutOfRange) := by
  constructor
  · intro h0 hi
    have hneg : ¬ i < 0 := by omega
    have hcond : 0 ≤ i ∧ i < (s.pixels.length : Int) := ⟨h0, by omega⟩
    refine ⟨{ s with pixels := s.pixels.set i.toNat c }, ?_, rfl, rfl, rfl⟩
    rw [Strip.set_pixel_color, pyListSet]
    rw [if_neg hneg, if_pos hcond]
    rfl
  · intro hout
    rw [Strip.set_pixel_color, pyListSet]
    rcases hout with hge | hlt
    · rw [if_neg (show ¬ i < 0 by omega),
        if_neg (show ¬ (0 ≤ i ∧ i < (s.pixels.length : Int)) by omega)]
      rfl
    · rw [if_pos (show i < 0 by omega),
        if_neg (show ¬ (0 ≤ i + (s.pixels.length : Int) ∧
          i + (s.pixels.length : Int) < (s.pixels.length : Int)) by omega)]
      rfl

/-- C4 witness: on a 3-LED strip, index 3 (one past the end) fails and index
2 succeeds. -/
theorem C4_set_pixel_bounds_witness :
    (Strip.init 3).set_pixel_color 3 ⟨1, 1, 1⟩ = .error .indexOutOfRange ∧
      ∃ s2, (Strip.init 3).set_pixel_color 2 ⟨1, 1, 1⟩ = .ok s2 ∧
        s2.pixels = (Strip.init 3).pixels.set (Int.toNat 2) ⟨1, 1, 1⟩ ∧
        s2.brightness = (Strip.init 3).brightness ∧
        s2.led_count = (Strip.init 3).led_count :=
  ⟨(C4_set_pixel_bounds (Strip.init 3) 3 ⟨1, 1, 1⟩ (by decide)).2
      (Or.inl (by decide)),
    (C4_set_pixel_bounds (Strip.init 3) 2 ⟨1, 1, 1⟩ (by decide)).1
      (by decide) (by decide)⟩

/-- C9: a negative index `i` with `-led_count ≤ i ≤ -1` raises no error and
silently mutates the pixel at position `led_count + i`. -/
theorem C9_negative_index_alias (s : Strip) (i : Int) (c : Color)
    (hlen : s.pixels.length = s.led_count)
    (h1 : -(s.led_count : Int) ≤ i) (h2 : i ≤ -1) :
    ∃ s2, s.set_pixel_color i c = .ok s2 ∧
      s2.pixels = s.pixels.set ((s.led_count : Int) + i).toNat c ∧
      s2.brightness = s.brightness ∧ s2.led_count = s.led_count := by
  have hneg : i < 0 := by omega
  have hcond : 0 ≤ i + (s.pixels.length : Int) ∧
      i + (s.pixels.length : Int) < (s.pixels.length : Int) := by omega
  have hidx : i + (s.pixels.length : Int) = (s.led_count : Int) + i := by omega
  refine ⟨{ s with pixels := s.pixels.set ((s.led_count : Int) + i).toNat c }, ?_, rfl, rfl, rfl⟩
  rw [Strip.set_pixel_color, pyListSet]
  rw [if_pos hneg, if_pos hcond, hidx]
  rfl

/-- C9 witness: on a 2-LED strip, index `-2` writes pixel 0. -/
theorem C9_negative_index_alias_witness :
    ∃ s2, (Strip.init 2).set_pixel_color (-2) ⟨5, 5, 5⟩ = .ok s2 ∧
      s2.pixels = (Strip.init 2).pixels.set
        (((Strip.init 2).led_count : Int) + (-2)).toNat ⟨5, 5, 5⟩ ∧
      s2.brightness = (Strip.init 2).brightness ∧
      s2.led_count = (Strip.init 2).led_count :=
  C9_negative_index_alias (Strip.init 2) (-2) ⟨5, 5, 5⟩
    (by decide) (by decide) (by decide)

/-! ## C6: brightness clamping -/

/-- C6: `set_brightness b` stores the clamp of `b` into `[0, 1]` (values in
range are stored as-is, negative inputs store 0, inputs above 1 store 1 — in
particular `-0.5` stores `0` and `1.5` stores `1`), leaves the pixel buffer
unchanged, and a subsequent `show` scales by the clamped value, not the raw
input. -/
theorem C6_set_brightness_clamps (s : Strip) (b : ℚ) :
    (0 ≤ (s.set_brightness b).brightness ∧
      (s.set_brightness b).brightness ≤ 1) ∧
    (0 ≤ b → b ≤ 1 → (s.set_brightness b).brightness = b) ∧
    (b < 0 → (s.set_brightness b).brightness = 0) ∧
    (1 < b → (s.set_brightness b).brightness = 1) ∧
    (s.set_brightness b).pixels = s.pixels ∧
    (s.set_brightness (-(1 / 2) : ℚ)).brightness = 0 ∧
    (s.set_brightness (3 / 2 : ℚ)).brightness = 1 ∧
    (s.set_brightness b).showOutput =
      Strip.showBytes (max (min b 1) 0) s.pixels := by
  have hneg : ∀ q : ℚ, q < 0 → (s.set_brightness q).brightness = 0 := by
    intro q hq
    rw [Strip.set_brightness]
    dsimp only
    rw [min_eq_left (le_of_lt (lt_of_lt_of_le hq zero_le_one)),
      max_eq_right (le_of_lt hq)]
  have hbig : ∀ q : ℚ, 1 < q → (s.set_brightness q).brightness = 1 := by
    intro q hq
    rw [Strip.set_brightness]
    dsimp only
    rw [min_eq_right (le_of_lt hq), max_eq_left zero_le_one]
  refine ⟨⟨le_max_right _ _, max_le (min_le_right _ _) zero_le_one⟩,
    ?_, hneg b, hbig b, rfl, hneg _ (by norm_num), hbig _ (by norm_num), rfl⟩
  intro h0 h1
  rw [Strip.set_brightness]
  dsimp only
  rw [min_eq_left h1, max_eq_left h0]

/-- C6 witness: an in-range brightness is stored as-is. -/
theorem C6_set_brightness_clamps_witness :
    ((Strip.init 1).set_brightness (1 / 2)).brightness = 1 / 2 :=
  (C6_set_brightness_clamps (Strip.init 1) (1 / 2)).2.1
    (by norm_num) (by norm_num)

/-! ## C7: the pixel buffer length invariant -/

/-- A successful `pyListSet` preserves the list length. -/
theorem pyListSet_ok_length (l : List Color) (i : Int) (c : Color)
    (px : List Color) (h : pyListSet l i c = .ok px) : px.length = l.length := by
  rw [pyListSet] at h
  by_cases hc : 0 ≤ (if i < 0 then i + (l.length : Int) else i) ∧
      (if i < 0 then i + (l.length : Int) else i) < (l.length : Int)
  · rw [if_pos hc] at h
    simp only [Except.ok.injEq] at h
    subst h
    exact List.length_set l _ c
  · rw [if_neg hc] at h
    exact absurd h (by simp)

/-- A successful `set_pixel_color` preserves all of the strip except the
pixel list, and preserves the pixel list length. -/
theorem set_pixel_color_ok_inv (s s2 : Strip) (i : Int) (c : Color)
    (h : s.set_pixel_color i c = .ok s2) :
    s2.pixels.length = s.pixels.length ∧ s2.led_count = s.led_count ∧
      s2.brightness = s.brightness := by
  rw [Strip.set_pixel_color] at h
  cases hm : pyListSet s.pixels i c with
  | error e => rw [hm] at h; exact absurd h (by simp [Except.map])
  | ok px =>
      rw [hm] at h
      simp only [Except.map, Except.ok.injEq] at h
      subst h
      exact ⟨pyListSet_ok_length _ _ _ _ hm, rfl, rfl⟩

/-- C7: every public `Strip` operation preserves the invariant
`pixels.length = led_count` (the buffer always holds exactly `led_count`
colors): `set_pixel_color` (when it succeeds), `set_all_pixels`,
`set_brightness`, `show` and `clear`. -/
theorem C7_length_invariant (s : Strip) (i : Int) (c : Color) (b : ℚ)
    (sys : System) (hlen : s.pixels.length = s.led_count)
    (hsys : sys.strip.pixels.length = sys.strip.led_count) :
    (∀ s2, s.set_pixel_color i c = .ok s2 →
      s2.pixels.length = s2.led_count) ∧
    (s.set_all_pixels c).pixels.length = (s.set_all_pixels c).led_count ∧
    (s.set_brightness b).pixels.length = (s.set_brightness b).led_count ∧
    (∀ sys2 tx, sys.showStep = .ok (sys2, tx) →
      sys2.strip.pixels.length = sys2.strip.led_count) ∧
    (sys.clear.1.strip.pixels.length = sys.clear.1.strip.led_count) := by
  refine ⟨?_, ?_, hlen, ?_, ?_⟩
  · intro s2 h
    obtain ⟨h1, h2, _⟩ := set_pixel_color_ok_inv s s2 i c h
    rw [h1, h2, hlen]
  · rw [Strip.set_all_pixels]
    exact List.length_replicate _ _
  · intro sys2 tx h
    rw [System.showStep] at h
    cases hm : sys.driver.write sys.strip.showOutput with
    | error e => rw [hm] at h; exact absurd h (by simp)
    | ok p =>
        rw [hm] at h
        simp only [Except.ok.injEq, Prod.mk.injEq] at h
        obtain ⟨h1, _⟩ := h
        subst h1
        exact hsys
  · rw [System.clear]
    dsimp only [Strip.clearPixels]
    exact List.length_replicate _ _

/-- C7 witness: the invariant holds across concrete operations on a 2-LED
strip and system. -/
theorem C7_length_invariant_witness :
    ((Strip.init 2).set_all_pixels ⟨3, 3, 3⟩).pixels.length =
      ((Strip.init 2).set_all_pixels ⟨3, 3, 3⟩).led_count :=
  (C7_length_invariant (Strip.init 2) 0 ⟨3, 3, 3⟩ 1
    (System.mk (Strip.init 2) (WS2812SpiDriver.init 2))
    (by decide) (by decide)).2.1

/-! ## C10: `show` leaves the strip unchanged -/

/-- C10: `show` does not change the strip's observable state: whenever it
succeeds, the stored pixel buffer and the stored brightness are exactly what
they were before the call (scaling and reordering happen only in the derived
output buffer). -/
theorem C10_show_preserves_strip (sys sys2 : System) (tx : List Nat)
    (h : sys.showStep = .ok (sys2, tx)) :
    sys2.strip.pixels = sys.strip.pixels ∧
      sys2.strip.brightness = sys.strip.brightness := by
  rw [System.showStep] at h
  cases hm : sys.driver.write sys.strip.showOutput with
  | error e => rw [hm] at h; exact absurd h (by simp)
  | ok p =>
      rw [hm] at h
      simp only [Except.ok.injEq, Prod.mk.injEq] at h
      obtain ⟨h1, _⟩ := h
      subst h1
      exact ⟨rfl, rfl⟩

/-- C10 witness: a concrete one-LED system where `show` succeeds. -/
theorem C10_show_preserves_strip_witness :
    ∃ sys2 tx,
      (System.mk (Strip.init 1) (WS2812SpiDriver.init 1)).showStep =
        .ok (sys2, tx) ∧
      sys2.strip.pixels = (Strip.init 1).pixels ∧
      sys2.strip.brightness = (Strip.init 1).brightness := by
  have h0 : npUint8 ((0 : Nat) * (1 : ℚ)) = 0 := by
    rw [Nat.cast_zero, zero_mul]
    decide
  have hshow : (Strip.init 1).showOutput = [0, 0, 0] := by
    simp only [Strip.showOutput, Strip.init, List.replicate, Strip.showBytes]
    rw [h0]
  have hw : ∃ sys2 tx,
      (System.mk (Strip.init 1) (WS2812SpiDriver.init 1)).showStep =
        .ok (sys2, tx) := by
    rw [System.showStep]
    dsimp only
    rw [hshow]
    exact ⟨_, _, rfl⟩
  obtain ⟨sys2, tx, hw⟩ := hw
  exact ⟨sys2, tx, hw,
    (C10_show_preserves_strip _ sys2 tx hw).1,
    (C10_show_preserves_strip _ sys2 tx hw).2⟩

/-! ## C2: `show` output refines the specified scaling -/

/-- With a byte channel and a brightness in `[0, 1]` the scaled value fits in
a byte, so the `uint8` cast does not wrap. -/
theorem npUint8_no_wrap (c : Nat) (b : ℚ) (hb0 : 0 ≤ b) (hb1 : b ≤ 1)
    (hc : c ≤ 255) : npUint8 ((c : ℚ) * b) = (⌊(c : ℚ) * b⌋).toNat := by
  rw [npUint8_eq_intFloor]
  apply Nat.mod_eq_of_lt
  have h1 : (c : ℚ) * b ≤ 255 := by
    calc (c : ℚ) * b ≤ (c : ℚ) * 1 :=
          mul_le_mul_of_nonneg_left hb1 (Nat.cast_nonneg c)
    _ = (c : ℚ) := mul_one _
    _ ≤ 255 := by exact_mod_cast hc
  have h2 : ⌊(c : ℚ) * b⌋ ≤ 255 := by
    have h255 : ⌊(255 : ℚ)⌋ = 255 := by
      rw [show ((255 : ℚ)) = ((255 : Nat) : ℚ) by norm_cast, Int.floor_natCast]
      norm_cast
    calc ⌊(c : ℚ) * b⌋ ≤ ⌊(255 : ℚ)⌋ := Int.floor_le_floor h1
    _ = 255 := h255
  omega

/-- On byte-valued pixels with a brightness in `[0, 1]`, the bytes built by
`show` are exactly the specified scaled triples, with no wraparound. -/
theorem showBytes_eq_specScaledTriples (b : ℚ) (l : List Color)
    (hb0 : 0 ≤ b) (hb1 : b ≤ 1)
    (hl : ∀ p ∈ l, p.r ≤ 255 ∧ p.g ≤ 255 ∧ p.b ≤ 255) :
    Strip.showBytes b l = specScaledTriples b l := by
  induction l with
  | nil => rfl
  | cons p rest ih =>
      obtain ⟨hr, hg, hbl⟩ := hl p (List.mem_cons_self p rest)
      rw [Strip.showBytes, specScaledTriples,
        npUint8_no_wrap _ _ hb0 hb1 hg, npUint8_no_wrap _ _ hb0 hb1 hr,
        npUint8_no_wrap _ _ hb0 hb1 hbl,
        ih (fun q hq => hl q (List.mem_cons_of_mem p hq))]

/-- C2: for every strip whose pixels are byte triples and whose brightness
lies in `[0, 1]`, `show` passes the driver exactly one `(g, r, b)` triple per
pixel in order, each channel scaled by the brightness and truncated toward
zero; in particular the `led_count = 3` scenario with pure red, green, blue
at brightness 1 produces `[0,255,0, 255,0,0, 0,0,255]`. -/
theorem C2_show_scaled_triples (s : Strip)
    (hb0 : 0 ≤ s.brightness) (hb1 : s.brightness ≤ 1)
    (hpx : ∀ p ∈ s.pixels, p.r ≤ 255 ∧ p.g ≤ 255 ∧ p.b ≤ 255) :
    s.showOutput = specScaledTriples s.brightness s.pixels ∧
    ∃ s3, ((Strip.init 3).set_pixel_color 0 ⟨255, 0, 0⟩ >>= fun s1 =>
        s1.set_pixel_color 1 ⟨0, 255, 0⟩ >>= fun s2 =>
        s2.set_pixel_color 2 ⟨0, 0, 255⟩) = .ok s3 ∧
      s3.showOutput = [0, 255, 0, 255, 0, 0, 0, 0, 255] := by
  refine ⟨showBytes_eq_specScaledTriples s.brightness s.pixels hb0 hb1 hpx,
    ⟨3, 1, [⟨255, 0, 0⟩, ⟨0, 255, 0⟩, ⟨0, 0, 255⟩]⟩, by decide, ?_⟩
  have h255 : npUint8 ((255 : Nat) * (1 : ℚ)) = 255 := by
    rw [mul_one, npUint8_natCast]
  have h0 : npUint8 ((0 : Nat) * (1 : ℚ)) = 0 := by
    rw [mul_one, npUint8_natCast]
  simp only [Strip.showOutput, Strip.showBytes, h0, h255]

/-- C2 witness: a concrete two-pixel strip at brightness 1. -/
theorem C2_show_scaled_triples_witness :
    (Strip.mk 2 1 [⟨10, 20, 30⟩, ⟨40, 50, 60⟩]).showOutput =
      specScaledTriples (Strip.mk 2 1 [⟨10, 20, 30⟩, ⟨40, 50, 60⟩]).brightness
        (Strip.mk 2 1 [⟨10, 20, 30⟩, ⟨40, 50, 60⟩]).pixels :=
  (C2_show_scaled_triples (Strip.mk 2 1 [⟨10, 20, 30⟩, ⟨40, 50, 60⟩])
    (by norm_num) (by norm_num) (by decide)).1

/-! ## C8: the white rotation effect -/

/-- C8 counterexample: after 1 rotation step the lit pixel sits at index 3,
not at index `1 % 4 = 1` — the rotation moves the lit pixel toward lower
indices, refuting the claimed `k mod 4` position. -/
theorem C8_counterexample :
    whiteRotateLit4 1 = .ok [3] ∧ (3 : Nat) ≠ 1 % 4 := by
  decide

/-- The `white_rotate` loop state on 4 LEDs is periodic with period 4 from
step 1 on. -/
theorem whiteRotateIter4_period (k : Nat) (hk : 1 ≤ k) :
    whiteRotateIter 4 (k + 4) = whiteRotateIter 4 k := by
  induction k, hk using Nat.le_induction with
  | base => decide
  | succ k hk ih =>
      have h1 : whiteRotateIter 4 (k + 1 + 4) =
          (whiteRotateIter 4 (k + 4)).bind whiteRotateStep := rfl
      rw [h1, ih]
      rfl

/-- After `4*q + r` steps (with `1 ≤ r ≤ 4`) the lit pixel is at
`(4 - r % 4) % 4`. -/
theorem whiteRotateLit4_aux (q : Nat) :
    ∀ r, 1 ≤ r → r ≤ 4 →
      whiteRotateLit4 (4 * q + r) = .ok [(4 - r % 4) % 4] := by
  induction q with
  | zero =>
      intro r h1 h4
      interval_cases r <;> decide
  | succ q ih =>
      intro r h1 h4
      have h : 4 * (q + 1) + r = (4 * q + r) + 4 := by ring
      have hm : 1 ≤ 4 * q + r := by omega
      rw [h, whiteRotateLit4, whiteRotateIter4_period _ hm,
        ← whiteRotateLit4]
      exact ih r h1 h4

/-- C8 (amended): on a 4-LED strip with the single lit pixel initially at
index 0, the buffer observed at the `k`-th `show()` (`k ≥ 1`) has its single
lit pixel at index `(4 - k % 4) % 4`, i.e. `(-k) mod 4`: the rotation steps
the lit pixel through indices 3, 2, 1, 0, 3, … rather than `k mod 4`. -/
theorem C8_rotation_lit_index (k : Nat) (hk : 1 ≤ k) :
    whiteRotateLit4 k = .ok [(4 - k % 4) % 4] := by
  have hdecomp : k = 4 * ((k - 1) / 4) + ((k - 1) % 4 + 1) := by omega
  have h1 : 1 ≤ (k - 1) % 4 + 1 := by omega
  have h4 : (k - 1) % 4 + 1 ≤ 4 := by omega
  have haux := whiteRotateLit4_aux ((k - 1) / 4) ((k - 1) % 4 + 1) h1 h4
  rw [← hdecomp] at haux
  rw [haux]
  have hmod : (4 - ((k - 1) % 4 + 1) % 4) % 4 = (4 - k % 4) % 4 := by omega
  rw [hmod]

/-- C8 witness: after 5 steps the lit pixel is back at index 3. -/
theorem C8_rotation_lit_index_witness :
    whiteRotateLit4 5 = .ok [(4 - 5 % 4) % 4] :=
  C8_rotation_lit_index 5 (by decide)

